import Mathlib

/-!
Verification of the crawling/extraction engine of the `open_files` repository
(`src/scraper/searxng_scraper.py`): the result classifier, the HTML-to-record
parser, the per-instance pagination loop and the multi-instance orchestrator.

The Python code is shallowly embedded as follows.

* Strings are Lean `String`s; Python's `needle in haystack` substring test is
  `containsSub`, and `str.lower()` is `lowerStr` (the inputs in scope are
  ASCII, where `Char.toLower` agrees with Python's case mapping).
* One page of markup is represented by the list of its result containers
  (`Container`), i.e. the output of the library call
  `soup.find_all('article', class_='result')`; each container carries the
  pieces the parser reads from it (heading link, first paragraph text,
  engine labels, cached link).
* `urlparse(url).netloc` is `netlocOf`: the authority component between the
  first `"://"` and the following `'/'`, `'?'` or `'#'` (the form taken by
  every URL in scope).
* The network behaviour seen by the pagination loop is a function
  `fetch : Nat → FetchOutcome` giving, per page number, either a response
  (status, containers of the body, response time) or a timeout/exception.
  Response times are rationals; the concrete values exercised below are
  exact in binary floating point, so the rational arithmetic agrees with
  the Python float arithmetic on them.
* The `while page <= max_pages` loop of `search_instance` runs at most
  `max_pages + 1 - page` iterations because `page` strictly increases, so it
  is embedded as the structurally recursive `pagerGo` driven by exactly that
  much fuel (`pagerLoop`); the guard is still re-checked every iteration, so
  the fuel never runs out before the guard fails.
* The merge stage of `search_multiple_instances` is embedded by its
  observable behaviour: the source builds `tasks` as a list of async
  generator objects and runs `async for task in asyncio.as_completed(tasks)`
  followed by `await task` — but async generators are neither acceptable to
  `as_completed` nor awaitable, so every invocation with at least one active
  instance raises `TypeError` at the start of the merge, before any pager
  body runs, before anything is yielded, and before the `total_queries`
  update. The embedding therefore returns `Except`: the all-inactive early
  return is `.ok ([], stats, [])`, the non-empty-active branch is the
  uncaught `TypeError`.
* The rate-limit sleep has no observable effect on the embedded state and is
  dropped.
-/

namespace OpenFiles

/-- Python list-of-characters prefix test used by the substring search:
`p.isPrefixOf l` for `List Char`. Helper for `subOccurs`. -/
def chListIsPre (p l : List Char) : Bool :=
  List.isPrefixOf p l

/-- Occurrence of `pat` as a contiguous run inside `l`: Python's `pat in l`
on strings, spelled out over the character lists. -/
def subOccurs (pat : List Char) : List Char → Bool
  | [] => pat.isEmpty
  | c :: rest => chListIsPre pat (c :: rest) || subOccurs pat rest

/-- Python `pat in hay` substring containment on strings (case-sensitive). -/
def containsSub (hay pat : String) : Bool :=
  subOccurs pat.toList hay.toList

/-- Python `str.lower()` restricted to the ASCII case mapping, which is all
the inputs in scope use. -/
def lowerStr (s : String) : String :=
  ⟨s.toList.map Char.toLower⟩

/-- Characters after the first occurrence of `pat` in the list, if `pat`
occurs at all. Helper for `netlocOf`. -/
def afterSub (pat : List Char) : List Char → Option (List Char)
  | [] => if chListIsPre pat [] then some [] else none
  | c :: rest =>
    if chListIsPre pat (c :: rest) then some ((c :: rest).drop pat.length)
    else afterSub pat rest

/-- Stop characters ending the authority component of a URL. -/
def netlocStop (c : Char) : Bool :=
  !(c == '/') && !(c == '?') && !(c == '#')

/-- Models `urlparse(url).netloc` for the URLs in scope: the authority
component between the first `"://"` and the next `'/'`, `'?'` or `'#'`;
a string without `"://"` has an empty authority. -/
def netlocOf (url : String) : String :=
  match afterSub (("://").toList) url.toList with
  | none => ""
  | some rest => ⟨rest.takeWhile netlocStop⟩

/-! ### Result classifier

`SearchResult.__post_init__` flags (substring tests on the raw URL) and the
two `_identify_file_type` routines, from `src/scraper/searxng_scraper.py`. -/

/-- Python `'docs.google.com' in self.url` from `SearchResult.__post_init__`. -/
def isGoogleDocUrl (url : String) : Bool :=
  containsSub url ("docs.google.com")

/-- Python `'drive.google.com' in self.url or 'docs.google.com' in self.url`
from `SearchResult.__post_init__`. -/
def isGoogleDriveUrl (url : String) : Bool :=
  containsSub url ("drive.google.com") || containsSub url ("docs.google.com")

/-- Extension table of `SearchResult._identify_file_type`, in source
(insertion) order. -/
def drFileExtensions : List (String × String) :=
  [("pdf", "PDF"), ("doc", "DOC"), ("docx", "DOCX"),
   ("xls", "XLS"), ("xlsx", "XLSX"), ("ppt", "PPT"), ("pptx", "PPTX"),
   ("txt", "TXT"), ("rtf", "RTF"), ("csv", "CSV"),
   ("odt", "ODT"), ("ods", "ODS"), ("odp", "ODP"),
   ("zip", "ZIP"), ("rar", "RAR"), ("7z", "7Z")]

/-- `SearchResult._identify_file_type` (the dataclass method): first table
entry whose `.ext` occurs in the lower-cased URL or title wins; otherwise the
Google special cases (note the fall-through from the docs branch to the drive
branch when no path marker matches); otherwise not a file. -/
def searchResultIdentifyFileType (url title : String) : Bool × Option String :=
  let urlLower := lowerStr url
  let titleLower := lowerStr title
  match drFileExtensions.find? (fun p =>
      containsSub urlLower (("." : String) ++ p.1) ||
      containsSub titleLower (("." : String) ++ p.1)) with
  | some p => (true, some p.2)
  | none =>
    if isGoogleDocUrl url then
      if containsSub url ("/document/") then (true, some ("Google Doc"))
      else if containsSub url ("/spreadsheets/") then (true, some ("Google Sheets"))
      else if containsSub url ("/presentation/") then (true, some ("Google Slides"))
      else if containsSub url ("/forms/") then (true, some ("Google Forms"))
      else if isGoogleDriveUrl url then (true, some ("Google Drive"))
      else (false, none)
    else if isGoogleDriveUrl url then (true, some ("Google Drive"))
    else (false, none)

/-- Extension table `self.file_extensions` of `SearxngScraper`, in source
(insertion) order. -/
def scraperFileExtensions : List (String × String) :=
  [("pdf", "pdf"),
   ("doc", "document"), ("docx", "document"), ("odt", "document"),
   ("xls", "spreadsheet"), ("xlsx", "spreadsheet"), ("ods", "spreadsheet"),
   ("ppt", "presentation"), ("pptx", "presentation"), ("odp", "presentation"),
   ("txt", "text"), ("rtf", "text"),
   ("zip", "archive"), ("rar", "archive"), ("7z", "archive"),
   ("mp3", "audio"), ("wav", "audio"), ("flac", "audio"),
   ("mp4", "video"), ("avi", "video"), ("mkv", "video"),
   ("jpg", "image"), ("jpeg", "image"), ("png", "image"), ("gif", "image")]

/-- `self.google_patterns` of `SearxngScraper`; the regexes escape their dots,
so `re.search` on them is a plain substring test. -/
def googlePatterns : List String :=
  ["docs.google.com", "drive.google.com", "sheets.google.com",
   "slides.google.com", "forms.google.com"]

/-- Title tokens treated as generic file indicators by
`SearxngScraper._identify_file_type`. -/
def fileIndicatorTokens : List String :=
  ["[pdf]", "[doc]", "[xls]", "filetype:", "download"]

/-- Pattern loop of `SearxngScraper._identify_file_type`: on the first pattern
occurring in the lower-cased URL, run the inner docs/sheets/slides/drive/forms
chain (whose cases cover every pattern, so the continue-branch is never taken
in practice but is kept for fidelity). -/
def googleLoop (urlLower : String) : List String → Option (Bool × Option String)
  | [] => none
  | p :: rest =>
    if containsSub urlLower p then
      if containsSub urlLower ("docs.google.com") then some (true, some ("google_doc"))
      else if containsSub urlLower ("sheets.google.com") then some (true, some ("google_sheet"))
      else if containsSub urlLower ("slides.google.com") then some (true, some ("google_slides"))
      else if containsSub urlLower ("drive.google.com") then some (true, some ("google_drive"))
      else if containsSub urlLower ("forms.google.com") then some (true, some ("google_form"))
      else googleLoop urlLower rest
    else googleLoop urlLower rest

/-- `SearxngScraper._identify_file_type(url, title)`: extension table over the
lower-cased URL, then the Google pattern loop, then the generic title-token
test. -/
def scraperIdentifyFileType (url title : String) : Bool × Option String :=
  let urlLower := lowerStr url
  match scraperFileExtensions.find? (fun p =>
      containsSub urlLower (("." : String) ++ p.1)) with
  | some p => (true, some p.2)
  | none =>
    match googleLoop urlLower googlePatterns with
    | some r => r
    | none =>
      let titleLower := lowerStr title
      if fileIndicatorTokens.any (fun w => containsSub titleLower w) then
        (true, some ("unknown"))
      else (false, none)

/-- File classification as effectively applied to every parsed result:
`_parse_results` computes `SearxngScraper._identify_file_type` and passes the
pair to the `SearchResult` constructor, whose `__post_init__` recomputes it
through `SearchResult._identify_file_type` exactly when the passed
`file_type` is falsy (the URL is nonempty on this path, having survived the
parser's skip guard). -/
def classify (url title : String) : Bool × Option String :=
  let pre := scraperIdentifyFileType url title
  match pre.2 with
  | some _ => pre
  | none => searchResultIdentifyFileType url title

/-! ### Result parser (`SearxngScraper._parse_results`) -/

/-- The `<a>` element inside a container's `<h3>`: its stripped text and its
`href` attribute (`get('href', '')`, so an absent attribute reads as `""`). -/
structure LinkElem where
  text : String
  href : String
deriving DecidableEq, Repr

/-- The container's `<h3>` heading, holding its first `<a>` if any. -/
structure Heading where
  link : Option LinkElem
deriving DecidableEq, Repr

/-- One result container (`<article class="result">`), abstracting the pieces
`_parse_results` reads from it. -/
structure Container where
  heading : Option Heading
  par : Option String
  engineLabels : List String
  cached : Option String
deriving DecidableEq, Repr

/-- Title/URL extraction from one container, `none` when the container is
skipped: no `<h3>`, no `<a>` inside it, empty title, or empty URL. -/
def extractTitleUrl (c : Container) : Option (String × String) :=
  match c.heading with
  | none => none
  | some h =>
    match h.link with
    | none => none
    | some l =>
      if l.text = "" || l.href = "" then none
      else some (l.text, l.href)

/-- The `SearchResult` dataclass (fields never touched by the parse path keep
their dataclass defaults). The float `score` is embedded as a rational. -/
structure SearchResult where
  title : String
  url : String
  description : String
  domain : String
  engines : List String
  cached_url : Option String
  position : Nat
  page_number : Nat
  is_file : Bool
  file_type : Option String
  is_google_doc : Bool
  is_google_drive : Bool
  score : ℚ := 0
  category : String := "general"
  engine : String := ""
deriving DecidableEq, Repr

/-- Construction of one `SearchResult` by `_parse_results` from a container
whose title/URL extraction succeeded, including the `__post_init__` logic
(Google flags from raw-URL substring tests; file classification recomputed
when the scraper-level classification produced no file type). -/
def mkResult (c : Container) (title url : String) (position pageNumber : Nat) :
    SearchResult :=
  let cls := classify url title
  { title := title
    url := url
    description := c.par.getD ""
    domain := netlocOf url
    engines := c.engineLabels
    cached_url := c.cached
    position := position
    page_number := pageNumber
    is_file := cls.1
    file_type := cls.2
    is_google_doc := isGoogleDocUrl url
    is_google_drive := isGoogleDriveUrl url }

/-- Body of the `for position, article in enumerate(result_articles, 1)` loop:
the counter advances with every container, parsed or skipped. -/
def parseResultsAux (pageNumber : Nat) : Nat → List Container → List SearchResult
  | _, [] => []
  | position, c :: rest =>
    match extractTitleUrl c with
    | none => parseResultsAux pageNumber (position + 1) rest
    | some tu =>
      mkResult c tu.1 tu.2 position pageNumber ::
        parseResultsAux pageNumber (position + 1) rest

/-- `SearxngScraper._parse_results(html, page_number)` over the container list
of the page. -/
def parse_results (containers : List Container) (pageNumber : Nat) :
    List SearchResult :=
  parseResultsAux pageNumber 1 containers

/-! ### Per-instance pager (`SearxngScraper.search_instance`) -/

/-- Per-instance entry of `self.stats['instance_stats']`. -/
structure InstanceStats where
  queries : Nat
  results : Nat
  errors : Nat
  avg_response_time : ℚ
deriving DecidableEq, Repr

/-- Fresh per-instance statistics entry. -/
def InstanceStats.init : InstanceStats :=
  ⟨0, 0, 0, 0⟩

/-- `errors += 1` on a failed page. -/
def incErrors (st : InstanceStats) : InstanceStats :=
  { st with errors := st.errors + 1 }

/-- `results += 1` per yielded result, folded over one page's results. -/
def addResults (st : InstanceStats) (n : Nat) : InstanceStats :=
  { st with results := st.results + n }

/-- Statistics update after a 200 response: `queries += 1`, then
`avg = (avg*(queries_count - 1) + response_time) / queries_count` with
`queries_count` the already-incremented counter. -/
def updateResponseStats (st : InstanceStats) (responseTime : ℚ) : InstanceStats :=
  let queriesCount := st.queries + 1
  { st with
    queries := queriesCount
    avg_response_time :=
      (st.avg_response_time * ((queriesCount : ℚ) - 1) + responseTime) /
        (queriesCount : ℚ) }

/-- Outcome of one page request as observed by the pagination loop. -/
inductive FetchOutcome where
  | ok (status : Nat) (containers : List Container) (responseTime : ℚ)
  | timeout
  | exn
deriving DecidableEq

/-- Observable outcome of one pager run: the yielded results, the final
per-instance statistics, and the page numbers actually requested. -/
structure PagerOut where
  results : List SearchResult
  stats : InstanceStats
  requested : List Nat
deriving DecidableEq, Repr

/-- One unrolling of the `while page <= max_pages` loop of `search_instance`,
driven by fuel (see the file header): guard check, request, error handling
(non-200 / timeout / exception each increment the error counter and break),
statistics update, parse, empty-page termination, yield-and-continue. -/
def pagerGo (fetch : Nat → FetchOutcome) (maxPages : Nat) :
    Nat → Nat → InstanceStats → PagerOut
  | 0, _, st => ⟨[], st, []⟩
  | fuel + 1, page, st =>
    if page ≤ maxPages then
      match fetch page with
      | .timeout => ⟨[], incErrors st, [page]⟩
      | .exn => ⟨[], incErrors st, [page]⟩
      | .ok status containers responseTime =>
        if status ≠ 200 then ⟨[], incErrors st, [page]⟩
        else
          let st1 := updateResponseStats st responseTime
          let rs := parse_results containers page
          if rs.isEmpty then ⟨[], st1, [page]⟩
          else
            let rest := pagerGo fetch maxPages fuel (page + 1) (addResults st1 rs.length)
            ⟨rs ++ rest.results, rest.stats, page :: rest.requested⟩
    else ⟨[], st, []⟩

/-- The pagination loop of `search_instance` from page `page` on: fuel
`maxPages + 1 - page` bounds the iteration count exactly. -/
def pagerLoop (fetch : Nat → FetchOutcome) (maxPages page : Nat)
    (st : InstanceStats) : PagerOut :=
  pagerGo fetch maxPages (maxPages + 1 - page) page st

/-! ### Multi-instance orchestrator (`SearxngScraper.search_multiple_instances`) -/

/-- Run-level statistics dictionary `self.stats` (the `last_reset` timestamp
carries no claim-relevant information and is omitted). -/
structure RunStats where
  total_queries : Nat
  successful_queries : Nat
  failed_queries : Nat
  total_results : Nat
  instance_stats : List (String × InstanceStats)
deriving DecidableEq, Repr

/-- Fresh run statistics, as set by `__init__` / `reset_stats`. -/
def RunStats.init : RunStats :=
  ⟨0, 0, 0, 0, []⟩

/-- One configured instance together with the network behaviour it exhibits
for the query of the run (page number to fetch outcome). -/
structure Instance where
  name : String
  url : String
  is_active : Bool
  fetch : Nat → FetchOutcome

/-- Dictionary key `f"{instance.name}_{instance.url}"`. -/
def Instance.key (i : Instance) : String :=
  i.name ++ ("_") ++ i.url

/-- Store `v` under `k` in the association list (replace or append). -/
def setKey : List (String × InstanceStats) → String → InstanceStats →
    List (String × InstanceStats)
  | [], k, v => [(k, v)]
  | (k', v') :: rest, k, v =>
    if k' = k then (k, v) :: rest else (k', v') :: setKey rest k v

/-- `search_instance` at the statistics level: an inactive instance returns
before touching any state; otherwise the instance's statistics entry is
created if absent, the pagination loop runs from page 1, and the run-level
`total_results` grows by one per yielded result. Returns the yielded
results, the updated run statistics and the requested page numbers. -/
def search_instance (inst : Instance) (maxPages : Nat) (stats : RunStats) :
    List SearchResult × RunStats × List Nat :=
  if inst.is_active then
    let st0 := (List.lookup inst.key stats.instance_stats).getD InstanceStats.init
    let out := pagerLoop inst.fetch maxPages 1 st0
    (out.results,
     { stats with
       total_results := stats.total_results + out.results.length
       instance_stats := setKey stats.instance_stats inst.key out.stats },
     out.requested)
  else ([], stats, [])

/-- `search_multiple_instances`: filter the active instances and return
immediately when none remains. With at least one active instance the source
reaches `async for task in asyncio.as_completed(tasks)` over a list of async
generator objects (and would `await task` on them); both operations are type
errors for async generators, so the call raises `TypeError` before any pager
body runs, before anything is yielded, and before the `total_queries`
increment — an uncaught exception, embedded as the `Except.error` branch. -/
def search_multiple_instances (instances : List Instance) (_maxPages : Nat)
    (stats : RunStats) :
    Except String (List SearchResult × RunStats × List Nat) :=
  let active := instances.filter (fun i => i.is_active)
  if active.isEmpty then Except.ok ([], stats, [])
  else Except.error ("TypeError")

/-! ### Concrete fixtures used by the scenario parts of the claims -/

/-- A result container with no heading at all: the parser skips it. -/
def malformedContainer : Container :=
  ⟨none, none, [], none⟩

/-- A well-formed result container: heading link with nonempty title and URL. -/
def wellFormedContainer : Container :=
  ⟨some ⟨some ⟨"Example", "http://example.com/a"⟩⟩, some "desc", [], none⟩

/-- Network behaviour: page 1 succeeds with two results, every later page
answers HTTP 500. -/
def fetch500 : Nat → FetchOutcome := fun p =>
  if p = 1 then .ok 200 [wellFormedContainer, wellFormedContainer] 1
  else .ok 500 [] 1

/-- Network behaviour: every page answers 200 with a single malformed
container, so every page parses to zero results. -/
def fetchAllMalformed : Nat → FetchOutcome := fun _ =>
  .ok 200 [malformedContainer] 1

/-- Network behaviour: non-empty pages 1 and 2 (two results each), an empty
page 3. -/
def fetchC6 : Nat → FetchOutcome := fun p =>
  if p ≤ 2 then .ok 200 [wellFormedContainer, wellFormedContainer] 1
  else .ok 200 [] 1

/-- Network behaviour: pages 1, 2, 3 succeed with response times 1s, 2s, 3s. -/
def fetchC7 : Nat → FetchOutcome := fun p =>
  if p ≤ 3 then .ok 200 [wellFormedContainer] (p : ℚ) else .ok 200 [] 1

/-- Instance A of the end-to-end scenario: two pages of 10 results, then an
empty page. -/
def instanceA : Instance :=
  ⟨"A", "http://a", true, fun p =>
    if p ≤ 2 then .ok 200 (List.replicate 10 wellFormedContainer) 1
    else .ok 200 [] 1⟩

/-- Instance B of the end-to-end scenario: one page of 3 results, then an
empty page. -/
def instanceB : Instance :=
  ⟨"B", "http://b", true, fun p =>
    if p = 1 then .ok 200 (List.replicate 3 wellFormedContainer) 1
    else .ok 200 [] 1⟩

/-- An inactive instance (its network behaviour is never consulted). -/
def instanceInactive : Instance :=
  ⟨"Z", "http://z", false, fun _ => FetchOutcome.exn⟩

/-! ### Helper lemmas on the substring machinery -/

theorem chListIsPre_append (p t : List Char) : chListIsPre p (p ++ t) = true := by
  induction p with
  | nil => simp [chListIsPre]
  | cons a as ih => simp [chListIsPre, List.isPrefixOf, ih]

theorem exists_of_chListIsPre :
    ∀ (p l : List Char), chListIsPre p l = true → ∃ t, l = p ++ t := by
  intro p
  induction p with
  | nil => exact fun l _ => ⟨l, rfl⟩
  | cons a as ih =>
    intro l h
    cases l with
    | nil => simp [chListIsPre] at h
    | cons b bs =>
      simp only [chListIsPre, List.isPrefixOf, Bool.and_eq_true, beq_iff_eq] at h
      obtain ⟨t, ht⟩ := ih bs (by simpa [chListIsPre] using h.2)
      exact ⟨t, by rw [ht, h.1]; rfl⟩

theorem subOccurs_nil_pat : ∀ l : List Char, subOccurs [] l = true
  | [] => rfl
  | _ :: _ => by simp [subOccurs, chListIsPre]

theorem subOccurs_self_append (mid post : List Char) :
    subOccurs mid (mid ++ post) = true := by
  cases mid with
  | nil => exact subOccurs_nil_pat post
  | cons m ms =>
    have hpre := chListIsPre_append (m :: ms) post
    rw [List.cons_append] at hpre
    simp [subOccurs, hpre]

theorem subOccurs_of_parts (pre mid post : List Char) :
    subOccurs mid (pre ++ (mid ++ post)) = true := by
  induction pre with
  | nil => exact subOccurs_self_append mid post
  | cons c cs ih => simp [subOccurs, ih]

theorem subOccurs_to_parts :
    ∀ (l pat : List Char), subOccurs pat l = true →
      ∃ pre post, l = pre ++ (pat ++ post) := by
  intro l
  induction l with
  | nil =>
    intro pat h
    simp only [subOccurs, List.isEmpty_iff] at h
    exact ⟨[], [], by simp [h]⟩
  | cons c rest ih =>
    intro pat h
    have h' : chListIsPre pat (c :: rest) = true ∨ subOccurs pat rest = true := by
      simpa [subOccurs] using h
    rcases h' with h1 | h2
    · obtain ⟨t, ht⟩ := exists_of_chListIsPre pat (c :: rest) h1
      exact ⟨[], t, by simp [ht]⟩
    · obtain ⟨pre, post, hp⟩ := ih pat h2
      exact ⟨c :: pre, post, by simp [hp]⟩

theorem containsSub_lower (hay pat : String) (h : containsSub hay pat = true) :
    containsSub (lowerStr hay) (lowerStr pat) = true := by
  obtain ⟨pre, post, hp⟩ := subOccurs_to_parts hay.toList pat.toList h
  show subOccurs (pat.toList.map Char.toLower) (hay.toList.map Char.toLower) = true
  rw [hp]
  simpa [List.map_append] using
    subOccurs_of_parts (pre.map Char.toLower) (pat.toList.map Char.toLower)
      (post.map Char.toLower)

theorem containsSub_false_of_lower (url p : String) (hp : lowerStr p = p)
    (h : containsSub (lowerStr url) p = false) : containsSub url p = false := by
  cases hc : containsSub url p with
  | false => rfl
  | true =>
    have := containsSub_lower url p hc
    rw [hp, h] at this
    exact absurd this (by simp)

theorem afterSub_to_parts (pat : List Char) :
    ∀ (l m : List Char), afterSub pat l = some m → ∃ pre, l = pre ++ (pat ++ m) := by
  intro l
  induction l with
  | nil =>
    intro m h
    simp only [afterSub] at h
    split at h
    · next hc =>
      obtain ⟨t, ht⟩ := exists_of_chListIsPre pat [] hc
      obtain ⟨hp, htn⟩ := List.append_eq_nil.1 ht.symm
      exact ⟨[], by simp [hp, (Option.some_inj.1 h).symm]⟩
    · exact absurd h (by simp)
  | cons c rest ih =>
    intro m h
    simp only [afterSub] at h
    split at h
    · next hc =>
      obtain ⟨t, ht⟩ := exists_of_chListIsPre pat (c :: rest) hc
      refine ⟨[], ?_⟩
      have hm : m = t := by
        have := Option.some_inj.1 h
        rw [ht, List.drop_left] at this
        exact this.symm
      simp [ht, hm]
    · obtain ⟨pre, hp⟩ := ih m h
      exact ⟨c :: pre, by simp [hp]⟩

theorem containsSub_netlocOf (url : String) :
    containsSub url (netlocOf url) = true := by
  cases h : afterSub (("://").toList) url.toList with
  | none =>
    have h' : afterSub ([':', '/', '/']) url.data = none := h
    have : netlocOf url = "" := by simp [netlocOf, h']
    rw [this]
    exact subOccurs_nil_pat url.toList
  | some rest =>
    obtain ⟨pre, hp⟩ := afterSub_to_parts _ _ _ h
    have h' : afterSub ([':', '/', '/']) url.data = some rest := h
    have hn : netlocOf url = ⟨rest.takeWhile netlocStop⟩ := by simp [netlocOf, h']
    rw [hn]
    show subOccurs (rest.takeWhile netlocStop) url.toList = true
    have hurl : url.toList =
        (pre ++ ("://").toList) ++
          (rest.takeWhile netlocStop ++ rest.dropWhile netlocStop) := by
      rw [List.takeWhile_append_dropWhile]
      simpa [List.append_assoc] using hp
    rw [hurl]
    exact subOccurs_of_parts _ _ _

/-! ### Helper lemmas on the classifier, parser and pager -/

theorem googleLoop_eq_none (u : String) :
    ∀ ps : List String, ps.all (fun p => !containsSub u p) = true →
      googleLoop u ps = none := by
  intro ps
  induction ps with
  | nil => exact fun _ => rfl
  | cons p rest ih =>
    intro h
    simp only [List.all_cons, Bool.and_eq_true, Bool.not_eq_true'] at h
    simpa [googleLoop, h.1] using ih (by simpa using h.2)

theorem parseResultsAux_positions (pageNumber : Nat) :
    ∀ (pos : Nat) (cs : List Container),
      (parseResultsAux pageNumber pos cs).map SearchResult.position =
        ((cs.enumFrom pos).filter
          (fun p => (extractTitleUrl p.2).isSome)).map Prod.fst := by
  intro pos cs
  induction cs generalizing pos with
  | nil => rfl
  | cons c rest ih =>
    cases h : extractTitleUrl c with
    | none => simp [parseResultsAux, h, List.filter_cons, ih]
    | some tu => simp [parseResultsAux, h, List.filter_cons, ih, mkResult]

theorem pagerGo_requested (fetch : Nat → FetchOutcome) (maxPages : Nat) :
    ∀ (fuel page : Nat) (st : InstanceStats),
      ∃ k, (pagerGo fetch maxPages fuel page st).requested = List.range' page k ∧
        (k = 0 ∨ page + k ≤ maxPages + 1) := by
  intro fuel
  induction fuel with
  | zero => exact fun page st => ⟨0, rfl, Or.inl rfl⟩
  | succ n ih =>
    intro page st
    by_cases hp : page ≤ maxPages
    · cases hf : fetch page with
      | timeout =>
        exact ⟨1, by simp [pagerGo, hp, hf, List.range'_one], Or.inr (by omega)⟩
      | exn =>
        exact ⟨1, by simp [pagerGo, hp, hf, List.range'_one], Or.inr (by omega)⟩
      | ok status containers rt =>
        by_cases hs : status = 200
        · subst hs
          by_cases he : (parse_results containers page).isEmpty
          · exact ⟨1, by simp [pagerGo, hp, hf, he, List.range'_one], Or.inr (by omega)⟩
          · obtain ⟨k', hreq, hk⟩ :=
              ih (page + 1)
                (addResults (updateResponseStats st rt)
                  (parse_results containers page).length)
            refine ⟨k' + 1, ?_, Or.inr (by rcases hk with h0 | h1 <;> omega)⟩
            simp only [pagerGo, hp, if_true, hf, he, Bool.false_eq_true,
              if_false, ne_eq, not_true_eq_false]
            rw [List.range'_succ]
            simpa [pagerGo, hp, hf, he] using hreq
        · exact ⟨1, by simp [pagerGo, hp, hf, hs, List.range'_one], Or.inr (by omega)⟩
    · exact ⟨0, by simp [pagerGo, hp], Or.inl rfl⟩

/-! ### Claims -/

/-- C1 (counterexample): `_parse_results` numbers positions with
`enumerate(result_articles, 1)` over ALL containers, so a malformed container
does consume a position number: a page with one malformed container followed
by one well-formed one returns exactly one `SearchResult`, but its position
is 2, not 1 as the claim states. -/
theorem c1_counterexample :
    (parse_results [malformedContainer, wellFormedContainer] 1).length = 1 ∧
    (parse_results [malformedContainer, wellFormedContainer] 1).map
      SearchResult.position = [2] ∧
    (parse_results [malformedContainer, wellFormedContainer] 1).map
      SearchResult.position ≠ [1] := by
  decide

/-- C1 (amended): for every markup page, `parse` assigns each returned Result
a position equal to its container's 1-based index among ALL containers on the
page, in document order; a container missing a title or URL is skipped but
still consumes a position number, so a page with one malformed container
followed by one well-formed container returns exactly one Result with
position 2. -/
theorem c1_positions_enumerate_all (containers : List Container)
    (pageNumber : Nat) :
    (parse_results containers pageNumber).map SearchResult.position =
      ((containers.enumFrom 1).filter
        (fun p => (extractTitleUrl p.2).isSome)).map Prod.fst ∧
    (parse_results [malformedContainer, wellFormedContainer] 1).map
      SearchResult.position = [2] :=
  ⟨parseResultsAux_positions pageNumber 1 containers, by decide⟩

/-- C2 (counterexample): for the URL `https://drive.google.com/file/d/abc`
paired with the title `report.pdf`, the extension token `.pdf` occurs in the
lower-cased title, yet `classify` returns the cloud kind `google_drive`, not
the pdf kind — title extensions are NOT consulted before the cloud-host
test. Moreover, the same URL with an empty title has no recognized extension
token in either table and no file-indicator title token, yet is classified
`is_file = true` — contradicting the claim's final clause. -/
theorem c2_counterexample :
    containsSub (lowerStr ("report.pdf")) ((".pdf")) = true ∧
    classify ("https://drive.google.com/file/d/abc") ("report.pdf") =
      (true, some ("google_drive")) ∧
    some ("google_drive") ≠ some ("pdf") ∧
    some ("google_drive") ≠ some ("PDF") ∧
    (scraperFileExtensions ++ drFileExtensions).all (fun p =>
      !containsSub (lowerStr ("https://drive.google.com/file/d/abc"))
        (("." : String) ++ p.1)) = true ∧
    fileIndicatorTokens.all
      (fun w => !containsSub (lowerStr ("")) w) = true ∧
    (classify ("https://drive.google.com/file/d/abc") ("")).1 = true := by
  decide

/-- C2 (amended): `classify` checks the extension table as a literal
substring `.ext` in the lower-cased URL before any cloud-host pattern or
title-token test, the first matching table entry determining the kind; a
pair with no recognized extension token (in URL or title, either table), no
cloud-host pattern in the URL and no file-indicator title token is marked
`is_file = false`. (Extension tokens occurring only in the title are
consulted merely as a last fallback, after the cloud-host and title-token
tests.) -/
theorem c2_classifier_order (url title : String) :
    (∀ p, scraperFileExtensions.find?
        (fun q => containsSub (lowerStr url) (("." : String) ++ q.1)) = some p →
      classify url title = (true, some p.2)) ∧
    (scraperFileExtensions.find?
        (fun q => containsSub (lowerStr url) (("." : String) ++ q.1)) = none →
      googlePatterns.all (fun q => !containsSub (lowerStr url) q) = true →
      fileIndicatorTokens.all (fun w => !containsSub (lowerStr title) w) = true →
      drFileExtensions.find? (fun q =>
        containsSub (lowerStr url) (("." : String) ++ q.1) ||
        containsSub (lowerStr title) (("." : String) ++ q.1)) = none →
      classify url title = (false, none)) := by
  constructor
  · intro p hp
    simp [classify, scraperIdentifyFileType, hp]
  · intro h1 h2 h3 h4
    have hloop : googleLoop (lowerStr url) googlePatterns = none :=
      googleLoop_eq_none _ _ h2
    have h3' : fileIndicatorTokens.any
        (fun w => containsSub (lowerStr title) w) = false := by
      simp only [List.all_eq_true, Bool.not_eq_true'] at h3
      simp only [List.any_eq_false]
      intro x hx
      simp [h3 x hx]
    have hdocs : containsSub url ("docs.google.com") = false := by
      refine containsSub_false_of_lower url _ (by decide) ?_
      have := (List.all_eq_true.1 h2) ("docs.google.com") (by decide)
      simpa using this
    have hdrive : containsSub url ("drive.google.com") = false := by
      refine containsSub_false_of_lower url _ (by decide) ?_
      have := (List.all_eq_true.1 h2) ("drive.google.com") (by decide)
      simpa using this
    simp [classify, scraperIdentifyFileType, h1, hloop, h3',
      searchResultIdentifyFileType, h4, isGoogleDocUrl, isGoogleDriveUrl,
      hdocs, hdrive]

/-- C2 (witness): the amended claim at concrete inputs: a URL carrying
`.pdf` classifies as a pdf file; a URL/title pair failing every test is not
a file. -/
theorem c2_witness :
    classify ("http://x/a.pdf") ("") = (true, some ("pdf")) ∧
    classify ("http://example.com/page") ("hello") = (false, none) :=
  ⟨(c2_classifier_order ("http://x/a.pdf") ("")).1 (("pdf"), ("pdf"))
      (by decide),
   (c2_classifier_order ("http://example.com/page") ("hello")).2
      (by decide) (by decide) (by decide) (by decide)⟩

/-- C3: on any page the loop reaches, a non-200 status or a timeout makes
`search_instance` increment the instance's error counter by exactly one
(leaving every other statistic untouched), yield nothing from that page,
request no further page, and return normally — no exception escapes, and
results already yielded from earlier pages are unaffected (the loop output
is appended after them, as the witness's full run shows). -/
theorem c3_failed_page_stops (fetch : Nat → FetchOutcome) (maxPages page : Nat)
    (st : InstanceStats)
    (hpage : page ≤ maxPages)
    (hfail : fetch page = FetchOutcome.timeout ∨
      ∃ status containers rt,
        fetch page = FetchOutcome.ok status containers rt ∧ status ≠ 200) :
    pagerLoop fetch maxPages page st =
      ⟨[], { st with errors := st.errors + 1 }, [page]⟩ := by
  have hk : maxPages + 1 - page = (maxPages - page) + 1 := by omega
  rw [pagerLoop, hk]
  rcases hfail with h | ⟨s, cs, rt, h, hs⟩
  · simp [pagerGo, hpage, h, incErrors]
  · simp [pagerGo, hpage, h, hs, incErrors]

/-- C3 (witness): HTTP 500 on page 2 after a successful page 1: the failing
page yields nothing and adds exactly one error; the full run from page 1
yields both page-1 results, ends with error counter 1, and requests only
pages 1 and 2. -/
theorem c3_witness :
    pagerLoop fetch500 5 2 ⟨1, 2, 0, 1⟩ = ⟨[], ⟨1, 2, 1, 1⟩, [2]⟩ ∧
    (pagerLoop fetch500 5 1 InstanceStats.init).results.map
      SearchResult.page_number = [1, 1] ∧
    (pagerLoop fetch500 5 1 InstanceStats.init).stats.errors = 1 ∧
    (pagerLoop fetch500 5 1 InstanceStats.init).requested = [1, 2] :=
  ⟨c3_failed_page_stops fetch500 5 2 ⟨1, 2, 0, 1⟩ (by decide)
      (Or.inr ⟨500, [], 1, rfl, by decide⟩),
   by decide, by decide, by decide⟩

/-- C4: parsing a page with zero result containers returns the empty list
(no error), and a 200 response whose parse yields zero results stops the
pagination right there with the error counter unchanged (only the query
counter and average response time are updated, as for any 200 response). -/
theorem c4_empty_page_terminates (fetch : Nat → FetchOutcome)
    (maxPages page : Nat) (st : InstanceStats) (containers : List Container)
    (rt : ℚ)
    (hpage : page ≤ maxPages)
    (hfetch : fetch page = FetchOutcome.ok 200 containers rt)
    (hparse : parse_results containers page = []) :
    parse_results ([] : List Container) page = [] ∧
    pagerLoop fetch maxPages page st =
      ⟨[], updateResponseStats st rt, [page]⟩ ∧
    (updateResponseStats st rt).errors = st.errors := by
  refine ⟨rfl, ?_, rfl⟩
  have hk : maxPages + 1 - page = (maxPages - page) + 1 := by omega
  rw [pagerLoop, hk]
  simp [pagerGo, hpage, hfetch, hparse]

/-- C4 (witness): a page whose single container is malformed parses to zero
results; the pager stops there with the error counter still zero. -/
theorem c4_witness :
    parse_results ([] : List Container) 1 = [] ∧
    pagerLoop fetchAllMalformed 3 1 InstanceStats.init =
      ⟨[], updateResponseStats InstanceStats.init 1, [1]⟩ ∧
    (updateResponseStats InstanceStats.init 1).errors =
      InstanceStats.init.errors :=
  c4_empty_page_terminates fetchAllMalformed 3 1 InstanceStats.init
    [malformedContainer] 1 (by decide) rfl (by decide)

/-- C5 (code bug): the orchestrator's merge machinery applies `async for`
and `await` to `asyncio.as_completed` of async generator objects, which
raises `TypeError` whenever at least one instance is active — so the
end-to-end scenario (instance A with two pages of 10 results then an empty
page, instance B with one page of 3 results then an empty page,
`max_pages = 5`, fresh statistics) never yields its 23 merged results and
never updates `total_queries` or `total_results`: evaluated at the claim's
own scenario, the call errors out with the statistics untouched. -/
theorem c5_orchestrator_merge_raises :
    search_multiple_instances [instanceA, instanceB] 5 RunStats.init =
      Except.error ("TypeError") :=
  rfl

/-- C6: for every network behaviour the pages requested by a pager run form
the consecutive block 1, 2, …, k for some k ≤ max_pages — the page number
starts at 1, increases by exactly 1 per successful fetch, and no page above
max_pages is ever requested; termination is inherent in the embedding (the
loop is a total function). In the concrete scenario (max_pages = 3,
non-empty pages 1 and 2, empty page 3) the run requests pages 1, 2, 3,
yields results only from pages 1 and 2, and finishes without error. -/
theorem c6_page_invariant :
    (∀ (fetch : Nat → FetchOutcome) (maxPages : Nat) (st : InstanceStats),
      ∃ k, k ≤ maxPages ∧
        (pagerLoop fetch maxPages 1 st).requested = List.range' 1 k) ∧
    (pagerLoop fetchC6 3 1 InstanceStats.init).requested = [1, 2, 3] ∧
    (pagerLoop fetchC6 3 1 InstanceStats.init).results.map
      SearchResult.page_number = [1, 1, 2, 2] ∧
    (pagerLoop fetchC6 3 1 InstanceStats.init).stats.errors = 0 := by
  refine ⟨?_, by decide, by decide, by decide⟩
  intro fetch maxPages st
  obtain ⟨k, hreq, hk⟩ := pagerGo_requested fetch maxPages (maxPages + 1 - 1) 1 st
  exact ⟨k, by rcases hk with h | h <;> omega, hreq⟩

/-- C7: the statistics update after a 200 response implements the
incremental mean `avg = (avg*(n-1) + sample)/n` with `n` the incremented
request counter, and a run of three requests with response times 1s, 2s, 3s
passes through averages 1, 3/2 and ends at exactly 2 with three counted
requests. -/
theorem c7_incremental_mean :
    (∀ (st : InstanceStats) (rt : ℚ),
      (updateResponseStats st rt).queries = st.queries + 1 ∧
      (updateResponseStats st rt).avg_response_time =
        (st.avg_response_time * (((st.queries + 1 : Nat) : ℚ) - 1) + rt) /
          ((st.queries + 1 : Nat) : ℚ)) ∧
    (pagerLoop fetchC7 1 1 InstanceStats.init).stats.avg_response_time = 1 ∧
    (pagerLoop fetchC7 2 1 InstanceStats.init).stats.avg_response_time = 3 / 2 ∧
    (pagerLoop fetchC7 3 1 InstanceStats.init).stats.avg_response_time = 2 ∧
    (pagerLoop fetchC7 3 1 InstanceStats.init).stats.queries = 3 := by
  refine ⟨fun st rt => ⟨rfl, rfl⟩, ?_, ?_, ?_, by decide⟩
  all_goals
    simp +decide [pagerLoop, pagerGo, fetchC7, parse_results, parseResultsAux,
      extractTitleUrl, wellFormedContainer, updateResponseStats, addResults,
      InstanceStats.init]
    try norm_num

/-- C8 (counterexample): a URL whose host is `drive.google.com` but which
contains `docs.google.com` later in the string (here in a query parameter)
sets the doc flag as well — a drive-type host does NOT always come without
`is_google_doc`. -/
theorem c8_counterexample :
    netlocOf ("https://drive.google.com/open?id=docs.google.com") =
      ("drive.google.com") ∧
    isGoogleDocUrl ("https://drive.google.com/open?id=docs.google.com")
      = true ∧
    isGoogleDriveUrl ("https://drive.google.com/open?id=docs.google.com")
      = true := by
  decide

/-- C8 (amended): every URL whose host is `docs.google.com` sets both
`is_google_doc` and `is_google_drive` (the doc flag always implies the drive
flag, for every URL, regardless of title — the flags do not read the title
at all); a drive-type host always sets `is_google_drive`, but not
necessarily without `is_google_doc`, since the doc flag fires on the
substring `docs.google.com` anywhere in the URL. -/
theorem c8_docs_host_sets_both (url : String) :
    (netlocOf url = ("docs.google.com") →
      isGoogleDocUrl url = true ∧ isGoogleDriveUrl url = true) ∧
    (netlocOf url = ("drive.google.com") → isGoogleDriveUrl url = true) ∧
    (isGoogleDocUrl url = true → isGoogleDriveUrl url = true) := by
  have hnet := containsSub_netlocOf url
  refine ⟨fun h => ?_, fun h => ?_, fun h => ?_⟩
  · rw [h] at hnet
    exact ⟨hnet, by simp [isGoogleDriveUrl, isGoogleDocUrl] at hnet ⊢; simp [hnet]⟩
  · rw [h] at hnet
    simp [isGoogleDriveUrl, hnet]
  · simp only [isGoogleDocUrl] at h
    simp [isGoogleDriveUrl, h]

/-- C8 (witness): the amended claim at concrete URLs with docs and drive
hosts. -/
theorem c8_witness :
    (isGoogleDocUrl ("https://docs.google.com/document/d/1") = true ∧
     isGoogleDriveUrl ("https://docs.google.com/document/d/1") = true) ∧
    isGoogleDriveUrl ("https://drive.google.com/file/d/1") = true :=
  ⟨(c8_docs_host_sets_both ("https://docs.google.com/document/d/1")).1
      (by decide),
   (c8_docs_host_sets_both ("https://drive.google.com/file/d/1")).2.1
      (by decide)⟩

/-- C9: the Google doc/drive flags are decided by a case-sensitive literal
substring test on the entire raw URL, not on its parsed host: any URL
containing `docs.google.com` sets both flags (here one whose host is
`example.com`, with the token inside a query parameter), while a URL whose
host is spelled `DOCS.GOOGLE.COM` sets neither. -/
theorem c9_flags_are_raw_substring_tests (url : String) :
    (containsSub url ("docs.google.com") = true →
      isGoogleDocUrl url = true ∧ isGoogleDriveUrl url = true) ∧
    (containsSub url ("docs.google.com") = false →
      containsSub url ("drive.google.com") = false →
      isGoogleDocUrl url = false ∧ isGoogleDriveUrl url = false) ∧
    netlocOf ("https://example.com/r?to=docs.google.com/x") = ("example.com") ∧
    isGoogleDocUrl ("https://example.com/r?to=docs.google.com/x") = true ∧
    isGoogleDriveUrl ("https://example.com/r?to=docs.google.com/x") = true ∧
    isGoogleDocUrl ("https://DOCS.GOOGLE.COM/document/d/1") = false ∧
    isGoogleDriveUrl ("https://DOCS.GOOGLE.COM/document/d/1") = false := by
  refine ⟨fun h => ?_, fun h1 h2 => ?_,
    by decide, by decide, by decide, by decide, by decide⟩
  · exact ⟨h, by simp [isGoogleDriveUrl, h]⟩
  · exact ⟨h1, by simp [isGoogleDriveUrl, h1, h2]⟩

/-- C9 (witness): the universally quantified parts of the claim applied to
concrete URLs. -/
theorem c9_witness :
    (isGoogleDocUrl ("x docs.google.com y") = true ∧
     isGoogleDriveUrl ("x docs.google.com y") = true) ∧
    (isGoogleDocUrl ("http://plain.example/") = false ∧
     isGoogleDriveUrl ("http://plain.example/") = false) :=
  ⟨(c9_flags_are_raw_substring_tests ("x docs.google.com y")).1 (by decide),
   (c9_flags_are_raw_substring_tests ("http://plain.example/")).2.1
      (by decide) (by decide)⟩

/-- C10: an orchestrator invocation on a list of instances none of which is
active yields the empty merged sequence, requests no page, and returns the
run statistics exactly as they were — in particular `total_queries` is not
incremented. -/
theorem c10_no_active_instances (instances : List Instance) (maxPages : Nat)
    (stats : RunStats)
    (h : instances.all (fun i => !i.is_active) = true) :
    search_multiple_instances instances maxPages stats =
      Except.ok ([], stats, []) := by
  have hfil : instances.filter (fun i => i.is_active) = [] := by
    rw [List.filter_eq_nil_iff]
    intro a ha
    have := (List.all_eq_true.1 h) a ha
    simp_all
  simp [search_multiple_instances, hfil]

/-- C10 (witness): a single inactive instance leaves fresh run statistics
untouched. -/
theorem c10_witness :
    search_multiple_instances [instanceInactive] 4 RunStats.init =
      Except.ok ([], RunStats.init, []) :=
  c10_no_active_instances [instanceInactive] 4 RunStats.init (by decide)

end OpenFiles
